import Mathlib

/-!
Verification of the host-side USBSIO protocol engine of `src/src/lpcusbsio.c`.

The C sources are embedded shallowly: machine integers become `Nat`/`Int`
(with `% 256` where `uint8_t` wraparound matters), buffers become `List ℕ`,
pointer-valued handles become numeric addresses with `0` playing the role of
`NULL`, and fallible or possibly-undefined code returns `Option` (`none`
marks a path on which the C program diverges or performs undefined behavior
such as a null-pointer dereference or an out-of-bounds array access).

The protocol header `lpcusbsio_protocol.h` is not part of the sources; the
definitions that depend on it carry a doc comment starting with
"Modelled from the spec:" and keep the frame geometry abstract.
-/

namespace LibUsbSio

/-- Constant `MAX_I2C_PORTS` of lpcusbsio.c line 49: compiled size of the
per-session I2C port table. -/
def MAX_I2C_PORTS : ℕ := 8

/-- Constant `MAX_SPI_PORTS` of lpcusbsio.c line 50: compiled size of the
per-session SPI port table. -/
def MAX_SPI_PORTS : ℕ := 8

/-- Error code `LPCUSBSIO_OK` of lpcusbsio.h. -/
def LPCUSBSIO_OK : Int := 0

/-- Error code `LPCUSBSIO_ERR_HID_LIB` of lpcusbsio.h. -/
def LPCUSBSIO_ERR_HID_LIB : Int := -1

/-- Error code `LPCUSBSIO_ERR_BAD_HANDLE` of lpcusbsio.h. -/
def LPCUSBSIO_ERR_BAD_HANDLE : Int := -2

/-- Error code `LPCUSBSIO_ERR_SYNCHRONIZATION` of lpcusbsio.h. -/
def LPCUSBSIO_ERR_SYNCHRONIZATION : Int := -3

/-- Error code `LPCUSBSIO_ERR_MEM_ALLOC` of lpcusbsio.h. -/
def LPCUSBSIO_ERR_MEM_ALLOC : Int := -4

/-- Error code `LPCUSBSIO_ERR_MUTEX_CREATE` of lpcusbsio.h. -/
def LPCUSBSIO_ERR_MUTEX_CREATE : Int := -5

/-- Error code `LPCUSBSIO_ERR_TIMEOUT` of lpcusbsio.h. -/
def LPCUSBSIO_ERR_TIMEOUT : Int := -0x20

/-- Error code `LPCUSBSIO_ERR_INVALID_PARAM` of lpcusbsio.h. -/
def LPCUSBSIO_ERR_INVALID_PARAM : Int := -0x22

/-- Modelled from the spec: `HID_SIO_PACKET_SZ` lives in the missing
`lpcusbsio_protocol.h`. The spec fixes the layout as one header of `hdr`
bytes followed by a fixed per-frame payload capacity of `cap` bytes
("header ... + a fixed payload capacity, historically 64 bytes total report
excluding the report-id byte"), so the full report size is `hdr + cap`.
The geometry is kept abstract throughout: `hdr` stands for
`HID_SIO_PACKET_HEADER_SZ` and `cap` for `HID_SIO_PACKET_DATA_SZ`. -/
def HID_SIO_PACKET_SZ (hdr cap : ℕ) : ℕ := hdr + cap

/-- Modelled from the spec: `HID_SIO_CALC_TRANSFER_LEN` lives in the missing
`lpcusbsio_protocol.h`. The spec only requires that the declared total
transfer length be a function of the payload length that stays fixed over the
whole transaction and that the completion identity of spec section 4.1 holds
on the final frame; this closed form is that value. No theorem below depends
on the concrete formula, only on its being a single fixed value. -/
def HID_SIO_CALC_TRANSFER_LEN (hdr cap len : ℕ) : ℕ :=
  if len = 0 then hdr
  else ((len - 1) / cap) * (hdr + cap) + (len - ((len - 1) / cap) * cap) + hdr

/-- Fields of one outbound HID report as filled in by `SIO_SendRequest`
(struct `HID_SIO_OUT_REPORT_T`; the report-id byte `outPacket[0] = 0` is a
platform artifact and is not modelled). `data` is the zero-padded body of
`HID_SIO_PACKET_DATA_SZ` bytes. -/
structure OutFrame where
  transId : ℕ
  sesId : ℕ
  req : ℕ
  transfer_len : ℕ
  packet_num : ℕ
  packet_len : ℕ
  data : List ℕ
deriving DecidableEq

/-- The do-while write loop of `SIO_SendRequest` (lpcusbsio.c lines 338-362).
`wres pn` is the value `hid_write` returns for the frame with packet number
`pn`; a frame is emitted (written) first and the loop then continues while
the last write result is positive and payload remains. `fuel` bounds the
number of iterations; `none` marks exhaustion, which for `0 < cap` cannot
happen with fuel above the payload length (with `cap = 0` the C loop would
simply never terminate). Returns the frames passed to `hid_write` in order
together with the result of the last write. -/
def sendLoop (hdr cap : ℕ) (wres : ℕ → Int) (tid sesId req tlen : ℕ) :
    ℕ → ℕ → List ℕ → Option (List OutFrame × Int)
  | 0, _, _ => none
  | fuel + 1, pn, outData =>
    let oneTx := if cap < outData.length then cap else outData.length
    let fr : OutFrame :=
      { transId := tid, sesId := sesId, req := req, transfer_len := tlen,
        packet_num := pn, packet_len := oneTx + hdr,
        data := outData.take oneTx ++ List.replicate (cap - oneTx) 0 }
    let res := wres pn
    let rest := outData.drop oneTx
    if 0 < res ∧ 0 < rest.length then
      (sendLoop hdr cap wres tid sesId req tlen fuel (pn + 1) rest).map
        (fun p => (fr :: p.1, p.2))
    else
      some ([fr], res)

/-- The write phase of `SIO_SendRequest` (lpcusbsio.c lines 330-362): the
header fields are seeded once — `transId` from the session's 8-bit counter,
`sesId` from the port number, `transfer_len` from
`HID_SIO_CALC_TRANSFER_LEN(outDataLen)`, `packet_num` from 0 — and the
do-while loop fragments the payload. -/
def sioWrite (hdr cap : ℕ) (wres : ℕ → Int) (transId portNum req : ℕ)
    (outData : List ℕ) : Option (List OutFrame × Int) :=
  sendLoop hdr cap wres (transId % 256) portNum req
    (HID_SIO_CALC_TRANSFER_LEN hdr cap outData.length)
    (outData.length + 1) 0 outData

/-- Payload bytes carried by a frame sequence: each frame contributes its
first `packet_len - header` body bytes, mirroring the size arithmetic the
reader uses (`memcpy(..., pIn->packet_len - HID_SIO_PACKET_HEADER_SZ)`). -/
def framesPayload (hdr : ℕ) (frames : List OutFrame) : List ℕ :=
  frames.foldr (fun fr acc => fr.data.take (fr.packet_len - hdr) ++ acc) []

/-- Fields of one inbound HID report (struct `HID_SIO_IN_REPORT_T`). -/
structure InFrame where
  transId : ℕ
  resp : ℕ
  transfer_len : ℕ
  packet_num : ℕ
  packet_len : ℕ
  data : List ℕ
deriving DecidableEq

/-- Modelled from the spec: `HID_SIO_RES_OK` is the "OK" response status of
the missing `lpcusbsio_protocol.h`; only its being a distinguished value
matters, so 0 is used (consistent with `ConvertResp` mapping it to
`LPCUSBSIO_OK`). -/
def HID_SIO_RES_OK : ℕ := 0

/-- Function `ConvertResp` of lpcusbsio.c lines 275-286: a non-OK device
status `res` becomes the library error `-(res + 0x10)`. -/
def ConvertResp (res : ℕ) : Int :=
  if res = HID_SIO_RES_OK then LPCUSBSIO_OK else -((res : Int) + 0x10)

/-- Outcome of one `hid_read_timeout` call: a positive result delivering one
report, a zero result (nothing arrived within the wait), or a negative
transport failure (hidapi reports failures as -1). -/
inductive ReadEvent where
  | frame (fr : InFrame)
  | timeout
  | fail
deriving DecidableEq

/-- The read phase of `SIO_SendRequest` (lpcusbsio.c lines 364-414): the
`while (res > 0 && read_pending)` loop. `tid` is the outstanding request's
transaction id (`pOut->transId`), `wantIn` whether the caller passed non-null
`inData`/`inLen` (payload is accumulated only then), `acc` the response bytes
accumulated so far, and the event list supplies the outcome of each
successive `hid_read_timeout`. Returns the final `res` and the accumulated
payload; `none` means the modelled event list was exhausted while the loop
was still pending (more reads would be needed). A frame whose `packet_len`
is below the header size is modelled with truncating subtraction. -/
def readLoop (hdr packetSz tid : ℕ) (wantIn : Bool) :
    List ReadEvent → List ℕ → Option (Int × List ℕ)
  | [], _ => none
  | ReadEvent.timeout :: _, acc => some (LPCUSBSIO_ERR_TIMEOUT, acc)
  | ReadEvent.fail :: _, acc => some (-1, acc)
  | ReadEvent.frame fr :: rest, acc =>
    if fr.transId ≠ tid then
      readLoop hdr packetSz tid wantIn rest acc
    else if fr.resp = HID_SIO_RES_OK then
      let acc' := if wantIn then acc ++ fr.data.take (fr.packet_len - hdr) else acc
      if fr.packet_num * packetSz + fr.packet_len = fr.transfer_len then
        some (LPCUSBSIO_OK, acc')
      else
        readLoop hdr packetSz tid wantIn rest acc'
    else
      some (ConvertResp fr.resp, acc)

/-- Environment of one `SIO_SendRequest` call: whether taking the session
mutex succeeds, the `hid_write` results by packet number, and the
`hid_read_timeout` outcomes in order. -/
structure SioEnv where
  lockOk : Bool
  wres : ℕ → Int
  events : List ReadEvent

/-- What a returning `SIO_SendRequest` call produced: the returned result
code, the bytes accumulated into the caller's response buffer, the frames
passed to `hid_write`, and whether the session mutex was still held at the
return point. -/
structure SioOutcome where
  res : Int
  inData : List ℕ
  frames : List OutFrame
  held : Bool
deriving DecidableEq

/-- Function `SIO_SendRequest` of lpcusbsio.c lines 288-426, for a call whose
buffer pointers are non-null (the `outData == NULL` / `inData == NULL`
parameter checks happen before the mutex is taken and are not representable
with list-modelled buffers). The mutex is acquired before any packet work and
released at the single unlock site every later path flows through (lines
415-423); releasing a mutex held by the calling thread is modelled as
succeeding. `none` models a call that never returns: the write loop stuck
with `cap = 0`, or more read events needed than `env.events` supplies. -/
def sioSendRequest (hdr cap : ℕ) (env : SioEnv) (transId portNum req : ℕ)
    (outData : List ℕ) (wantIn : Bool) : Option SioOutcome :=
  if ¬ env.lockOk then
    some { res := LPCUSBSIO_ERR_SYNCHRONIZATION, inData := [], frames := [], held := false }
  else
    match sioWrite hdr cap env.wres transId portNum req outData with
    | none => none
    | some (frames, wfinal) =>
      if 0 < wfinal then
        match readLoop hdr (HID_SIO_PACKET_SZ hdr cap) (transId % 256) wantIn env.events [] with
        | none => none
        | some (r, d) => some { res := r, inData := d, frames := frames, held := false }
      else
        some { res := wfinal, inData := [], frames := frames, held := false }

/-- Function `validHandle` of lpcusbsio.c lines 194-203. Session handles are
modelled as numeric addresses with `0` for `NULL`; `chain` lists the node
addresses of `g_Ctrl.devList` in order. The C loop steps
`curDev = curDev->next` whenever `dev != curDev`, so when `curDev` reaches
the null end of the list with `dev` still unmatched, the next iteration
evaluates `NULL->next`; `none` marks that null dereference. Exiting with
`curDev == dev` yields `(curDev == NULL) ? 0 : 1`. -/
def validHandle (dev : ℕ) : List ℕ → Option Bool
  | [] => if dev = 0 then some false else none
  | a :: rest => if dev = a then some true else validHandle dev rest

/-- One entry of the fixed port tables (struct `LPCUSBSIO_PortCtrl_t`): the
back-reference to the owning session (`none` models the `NULL` stored in a
closed slot) and the stored port number. -/
structure PortSlot where
  hUsbSio : Option ℕ
  portNum : ℕ
deriving DecidableEq

/-- A closed port slot: back-reference `NULL`, port number 0 (the all-zero
state `LPCUSBSIO_Open` leaves after `memset`, and the state `I2C_Close` and
`SPI_Close` write back). -/
def emptySlot : PortSlot := { hUsbSio := none, portNum := 0 }

/-- The per-session state relevant to port management (struct
`LPCUSBSIO_Ctrl_t`): the session's own address (the handle value), the
device-reported capability counts, and the two fixed port tables, each a
list of `MAX_I2C_PORTS` resp. `MAX_SPI_PORTS` slots in well-formed states. -/
structure DevCtrl where
  adr : ℕ
  maxI2CPorts : ℕ
  maxSPIPorts : ℕ
  i2cPorts : List PortSlot
  spiPorts : List PortSlot
deriving DecidableEq

/-- Lookup of the live session node with address `a` (the identity-based
handle resolution every port operation performs by dereferencing). -/
def findDev (reg : List DevCtrl) (a : ℕ) : Option DevCtrl :=
  reg.find? (fun d => d.adr == a)

/-- Update of the live session node with address `a` in place. -/
def updDev (reg : List DevCtrl) (a : ℕ) (f : DevCtrl → DevCtrl) : List DevCtrl :=
  reg.map (fun d => if d.adr = a then f d else d)

/-- Function `validPortHandle` of lpcusbsio.c lines 205-224. A port handle is
modelled as the pair (owning session address, slot offset into the combined
port area) at slot granularity: offset `k` stands for the address of
`i2cPorts[0]` plus `k * sizeof(LPCUSBSIO_PortCtrl_t)`, offsets 0..7 being the
I2C slots and 8..15 the SPI slots. The C check accepts
`lowAdr <= portAdr <= lowAdr + (MAX_I2C_PORTS + MAX_SPI_PORTS) * sizeof(...)`,
i.e. offsets 0..16 inclusive — the upper bound is one slot past the end of
the SPI table. The slot's contents (in particular its back-reference) are
never consulted: only the address range decides validity. -/
def validPortHandle (reg : List DevCtrl) (h : ℕ × ℕ) : Bool :=
  reg.any (fun d => d.adr == h.1 && h.2 ≤ MAX_I2C_PORTS + MAX_SPI_PORTS)

/-- Reading `*(LPCUSBSIO_PortCtrl_t *)hPort`: the slot at offset `k` of the
combined port area of the session at address `h.1`. `none` when no live
session matches or the offset lies outside the two tables (the C read of the
one-past-the-end address that `validPortHandle` admits). -/
def portSlotAt (reg : List DevCtrl) (h : ℕ × ℕ) : Option PortSlot :=
  match findDev reg h.1 with
  | none => none
  | some d =>
    if h.2 < MAX_I2C_PORTS then d.i2cPorts[h.2]?
    else if h.2 < MAX_I2C_PORTS + MAX_SPI_PORTS then d.spiPorts[h.2 - MAX_I2C_PORTS]?
    else none

/-- The slot write `devI2c->portNum = 0; devI2c->hUsbSio = NULL;` performed by
`I2C_Close`/`SPI_Close` on success, addressed through the port handle. -/
def clearSlot (reg : List DevCtrl) (h : ℕ × ℕ) : List DevCtrl :=
  updDev reg h.1 (fun d =>
    if h.2 < MAX_I2C_PORTS then
      { d with i2cPorts := d.i2cPorts.set h.2 emptySlot }
    else
      { d with spiPorts := d.spiPorts.set (h.2 - MAX_I2C_PORTS) emptySlot })

/-- Function `I2C_Open` of lpcusbsio.c lines 771-798. `a` is the
device-session handle value, `cfgPresent` whether `config != NULL`,
`mallocOk` the outcome of the request-buffer allocation and `initRes` the
result of the `HID_I2C_REQ_INIT_PORT` exchange. Returns the port handle (if
any), the new registry, and the new `g_lastError` (`none` when the path
leaves it untouched). The overall `none` marks undefined behavior: the
`validHandle` null dereference on a non-null stranger handle, or — when the
device-reported `maxI2CPorts` exceeds the compiled table — the
`dev->i2cPorts[portNum]` store beyond the eight-slot table. -/
def I2C_Open (reg : List DevCtrl) (a : ℕ) (cfgPresent : Bool) (portNum : ℕ)
    (mallocOk : Bool) (initRes : Int) :
    Option (Option (ℕ × ℕ) × List DevCtrl × Option Int) :=
  match validHandle a (reg.map DevCtrl.adr) with
  | none => none
  | some false => some (none, reg, some LPCUSBSIO_ERR_INVALID_PARAM)
  | some true =>
    match findDev reg a with
    | none => none
    | some d =>
      if ¬ cfgPresent ∨ d.maxI2CPorts ≤ portNum then
        some (none, reg, some LPCUSBSIO_ERR_INVALID_PARAM)
      else if ¬ mallocOk then
        some (none, reg, none)
      else if initRes = LPCUSBSIO_OK then
        if portNum < MAX_I2C_PORTS then
          some (some (a, portNum),
            updDev reg a (fun d0 =>
              { d0 with i2cPorts :=
                  d0.i2cPorts.set portNum { hUsbSio := some a, portNum := portNum } }),
            some initRes)
        else none
      else
        some (none, reg, some initRes)

/-- Function `I2C_Close` of lpcusbsio.c lines 800-813. `deinitRes` is the
result of the `HID_I2C_REQ_DEINIT_PORT` exchange through `SIO_SendRequest`.
Returns (function result, new registry, whether a transport exchange was
attempted). `none` marks undefined behavior: reading the one-past-the-end
slot that `validPortHandle` admits, or — when the slot's back-reference is
already `NULL` — the null session dereference inside
`SIO_SendRequest(devI2c->hUsbSio, ...)`. -/
def I2C_Close (reg : List DevCtrl) (h : ℕ × ℕ) (deinitRes : Int) :
    Option (Int × List DevCtrl × Bool) :=
  if ¬ validPortHandle reg h then some (LPCUSBSIO_ERR_BAD_HANDLE, reg, false)
  else
    match portSlotAt reg h with
    | none => none
    | some slot =>
      match slot.hUsbSio with
      | none => none
      | some _ =>
        if deinitRes = LPCUSBSIO_OK then some (LPCUSBSIO_OK, clearSlot reg h, true)
        else some (deinitRes, reg, true)

/-- Registry effect of `LPCUSBSIO_Open` (lpcusbsio.c lines 561-647). The
inputs model the outcomes of its external calls: whether the discovery list
has an entry at the index, whether `hid_open_path` succeeds, whether the
session `malloc` succeeds, whether mutex creation succeeds. `newAdr` is the
address the session `malloc` returns. The session is linked at the head of
`g_Ctrl.devList` (lines 586-587) before the mutex is created; the device-info
exchange afterwards only fills capability fields and never changes the list.
Returns (handle or `NULL`, new session list). -/
def lpcOpenRegistry (reg : List ℕ) (newAdr : ℕ)
    (devFound hidOk mallocOk mutexOk : Bool) : Option ℕ × List ℕ :=
  if ¬ devFound then (none, reg)
  else if ¬ hidOk then (none, reg)
  else if ¬ mallocOk then (none, reg)
  else
    let linked := newAdr :: reg
    if ¬ mutexOk then (none, linked)
    else (some newAdr, linked)

/-- Capability counts of one session as parsed by `LPCUSBSIO_Open`. -/
structure DevCaps where
  maxI2CPorts : ℕ
  maxSPIPorts : ℕ
  maxGPIOPorts : ℕ
deriving DecidableEq

/-- The capability-parsing step of `LPCUSBSIO_Open` (lpcusbsio.c lines
613-634): when the device-info exchange succeeded and delivered at least 12
bytes, the capability counts are taken verbatim from the first three response
bytes (`% 256` embeds the `uint8_t` reads); otherwise the pre-zeroed fields
stay as they are. No clamping against the compiled table sizes occurs. -/
def parseDevInfo (inData : List ℕ) (inLen : ℕ) (old : DevCaps) : DevCaps :=
  if 12 ≤ inLen then
    { maxI2CPorts := inData.getD 0 0 % 256,
      maxSPIPorts := inData.getD 1 0 % 256,
      maxGPIOPorts := inData.getD 2 0 % 256 }
  else old

/-- Constant `NUM_LIB_ERR_STRINGS` of lpcusbsio.c line 44. -/
def NUM_LIB_ERR_STRINGS : ℕ := 6

/-- Constant `NUM_FW_ERR_STRINGS` of lpcusbsio.c line 45. -/
def NUM_FW_ERR_STRINGS : ℕ := 6

/-- Constant `NUM_BRIDGE_ERR_STRINGS` of lpcusbsio.c line 46. -/
def NUM_BRIDGE_ERR_STRINGS : ℕ := 4

/-- Fallback for out-of-table reads; never produced by `GetErrorString` on
the ranges the tables cover. -/
def noMsg : String := ""

/-- Table `g_LibErrMsgs` of lpcusbsio.c lines 104-111 (wide strings modelled
as Lean strings). -/
def g_LibErrMsgs : List String :=
  ["No errors are recorded.",
   "HID library error.",
   "Handle passed to the function is invalid.",
   "Mutex Calls failed.",
   "Memory Allocation Error.",
   "Mutex Creation Error."]

/-- Table `g_fwErrMsgs` of lpcusbsio.c lines 113-120. -/
def g_fwErrMsgs : List String :=
  ["Firmware error.",
   "Fatal error happened",
   "Transfer aborted due to NAK",
   "Transfer aborted due to bus error",
   "No acknowledgement received from slave address",
   "I2C bus arbitration lost to other master"]

/-- Table `g_BridgeErrMsgs` of lpcusbsio.c lines 122-128 (note the
`NUM_BRIDGE_ERR_STRINGS + 1` entries: the extra last entry is the
unsupported-code fallback of this range only). -/
def g_BridgeErrMsgs : List String :=
  ["Transaction timed out.",
   "Invalid HID_SIO Request or Request not supported in this version.",
   "Invalid parameters are provided for the given Request.",
   " Partial transfer completed.",
   " Unsupported Error Code"]

/-- Function `GetErrorString` of lpcusbsio.c lines 255-273: `retStr` starts
as `g_LibErrMsgs[0]` and each range overwrites it; absolute values of 0x30
and above keep the initial value. -/
def GetErrorString (err : Int) : String :=
  let index := err.natAbs
  if index < 0x10 then
    if index < NUM_LIB_ERR_STRINGS then g_LibErrMsgs.getD index noMsg
    else g_LibErrMsgs.getD 0 noMsg
  else if index < 0x20 then
    if index - 0x10 < NUM_FW_ERR_STRINGS then g_fwErrMsgs.getD (index - 0x10) noMsg
    else g_fwErrMsgs.getD 0 noMsg
  else if index < 0x30 then
    if index - 0x20 < NUM_BRIDGE_ERR_STRINGS then g_BridgeErrMsgs.getD (index - 0x20) noMsg
    else g_BridgeErrMsgs.getD NUM_BRIDGE_ERR_STRINGS noMsg
  else
    g_LibErrMsgs.getD 0 noMsg

section Theorems

/-- Stepwise evaluation of the write loop on a 300-byte payload with
per-frame payload capacity 60 and successful writes: five frames, in order,
with the bodies being the successive 60-byte chunks. -/
lemma sendLoop_five (hdr : ℕ) (w : ℕ → Int) (tid s r tl : ℕ) (d : List ℕ)
    (hw : ∀ n, 0 < w n) (hlen : d.length = 300) :
    sendLoop hdr 60 w tid s r tl (300 + 1) 0 d =
      some ([⟨tid, s, r, tl, 0, 60 + hdr, d.take 60⟩,
             ⟨tid, s, r, tl, 1, 60 + hdr, (d.drop 60).take 60⟩,
             ⟨tid, s, r, tl, 2, 60 + hdr, (d.drop 120).take 60⟩,
             ⟨tid, s, r, tl, 3, 60 + hdr, (d.drop 180).take 60⟩,
             ⟨tid, s, r, tl, 4, 60 + hdr, (d.drop 240).take 60⟩], w 4) := by
  have h0 := hw 0
  have h1 := hw 1
  have h2 := hw 2
  have h3 := hw 3
  have h4 := hw 4
  rw [sendLoop]
  simp only [hlen, List.length_drop]
  norm_num [h0]
  rw [sendLoop]
  simp only [List.drop_drop, List.length_drop, hlen]
  norm_num [h1]
  rw [sendLoop]
  simp only [List.drop_drop, List.length_drop, hlen]
  norm_num [h2]
  rw [sendLoop]
  simp only [List.drop_drop, List.length_drop, hlen]
  norm_num [h3]
  rw [sendLoop]
  simp only [List.drop_drop, List.length_drop, hlen]
  norm_num [h4]

/-- C1: for every 300-byte request payload sent through the transaction
engine with a per-frame payload capacity of 60 bytes and successful
transport writes, the encoder emits exactly 5 outbound frames with packet
sequence numbers 0,1,2,3,4, all carrying the same transaction id and the
same declared total transfer length; every frame (in particular the last)
carries 60 payload bytes with packet length = 60 + header size, and the
frame bodies reassemble to the payload. -/
theorem write_300_byte_payload_five_frames (hdr t p r : ℕ) (wres : ℕ → Int)
    (payload : List ℕ) (hlen : payload.length = 300) (hw : ∀ n, 0 < wres n) :
    ∃ frames wfinal,
      sioWrite hdr 60 wres t p r payload = some (frames, wfinal) ∧
      frames.length = 5 ∧
      frames.map OutFrame.packet_num = [0, 1, 2, 3, 4] ∧
      (∀ fr ∈ frames, fr.transId = t % 256) ∧
      (∀ fr ∈ frames, fr.transfer_len = HID_SIO_CALC_TRANSFER_LEN hdr 60 300) ∧
      (∀ fr ∈ frames, fr.packet_len = 60 + hdr) ∧
      framesPayload hdr frames = payload := by
  have h5 := sendLoop_five hdr wres (t % 256) p r
    (HID_SIO_CALC_TRANSFER_LEN hdr 60 300) payload hw hlen
  refine ⟨[⟨t % 256, p, r, HID_SIO_CALC_TRANSFER_LEN hdr 60 300, 0, 60 + hdr, payload.take 60⟩,
           ⟨t % 256, p, r, HID_SIO_CALC_TRANSFER_LEN hdr 60 300, 1, 60 + hdr,
             (payload.drop 60).take 60⟩,
           ⟨t % 256, p, r, HID_SIO_CALC_TRANSFER_LEN hdr 60 300, 2, 60 + hdr,
             (payload.drop 120).take 60⟩,
           ⟨t % 256, p, r, HID_SIO_CALC_TRANSFER_LEN hdr 60 300, 3, 60 + hdr,
             (payload.drop 180).take 60⟩,
           ⟨t % 256, p, r, HID_SIO_CALC_TRANSFER_LEN hdr 60 300, 4, 60 + hdr,
             (payload.drop 240).take 60⟩],
         wres 4, ?_, ?_, ?_, ?_, ?_, ?_, ?_⟩
  · rw [sioWrite, hlen]
    exact h5
  · rfl
  · rfl
  · intro fr hfr
    simp only [List.mem_cons, List.not_mem_nil, or_false] at hfr
    rcases hfr with h | h | h | h | h <;> subst h <;> rfl
  · intro fr hfr
    simp only [List.mem_cons, List.not_mem_nil, or_false] at hfr
    rcases hfr with h | h | h | h | h <;> subst h <;> rfl
  · intro fr hfr
    simp only [List.mem_cons, List.not_mem_nil, or_false] at hfr
    rcases hfr with h | h | h | h | h <;> subst h <;> rfl
  · have hchunk : (payload.drop 240).take 60 = payload.drop 240 := by
      apply List.take_of_length_le
      simp [hlen]
    simp only [framesPayload, List.foldr, Nat.add_sub_cancel, List.take_take,
      Nat.min_self, List.append_nil, hchunk]
    rw [show payload.drop 240 = (payload.drop 180).drop 60 by simp [List.drop_drop],
      List.take_append_drop,
      show payload.drop 180 = (payload.drop 120).drop 60 by simp [List.drop_drop],
      List.take_append_drop,
      show payload.drop 120 = (payload.drop 60).drop 60 by simp [List.drop_drop],
      List.take_append_drop, List.take_append_drop]

/-- Witness for C1 at a concrete payload. -/
theorem write_300_byte_payload_five_frames_witness :
    ∃ frames wfinal,
      sioWrite 4 60 (fun _ => 1) 7 2 14 (List.replicate 300 9) = some (frames, wfinal) ∧
      frames.length = 5 ∧
      frames.map OutFrame.packet_num = [0, 1, 2, 3, 4] ∧
      (∀ fr ∈ frames, fr.transId = 7 % 256) ∧
      (∀ fr ∈ frames, fr.transfer_len = HID_SIO_CALC_TRANSFER_LEN 4 60 300) ∧
      (∀ fr ∈ frames, fr.packet_len = 60 + 4) ∧
      framesPayload 4 frames = List.replicate 300 9 :=
  write_300_byte_payload_five_frames 4 7 2 14 (fun _ => 1) (List.replicate 300 9)
    (List.length_replicate 300 9) (fun n => by norm_num)

/-- Response frame of the C2 counterexample: status OK, transaction id 7,
sequence number 1, packet length 14 (10 payload bytes under a 4-byte
header), declared transfer length 74 = 1 * 60 + 14. -/
def c2Frame : InFrame :=
  { transId := 7, resp := 0, transfer_len := 74, packet_num := 1, packet_len := 14,
    data := List.replicate 60 5 }

/-- C2 counterexample: with header size 4 and per-frame payload capacity 60,
an OK frame matching the outstanding transaction satisfies the claimed
identity `packet_num * capacity + packet_len = transfer_len` (1 * 60 + 14 =
74), yet the read phase does not declare the transaction complete: the loop
is still pending after consuming the frame (the code multiplies the sequence
number by the full report size 64, so it compares 1 * 64 + 14 = 78 with 74
and keeps reading). -/
theorem completion_not_at_capacity_identity :
    c2Frame.packet_num * 60 + c2Frame.packet_len = c2Frame.transfer_len ∧
    c2Frame.resp = HID_SIO_RES_OK ∧
    c2Frame.transId = 7 ∧
    readLoop 4 (HID_SIO_PACKET_SZ 4 60) 7 true [ReadEvent.frame c2Frame] [] = none := by
  decide

/-- C2 amended: for an OK-status frame matching the outstanding transaction
id, the read phase declares the transaction complete exactly when
`packet_num * (header size + payload capacity) + packet_len = transfer_len`
holds on the frame's own fields — the multiplier is the full report size
`HID_SIO_PACKET_SZ`, not the per-frame payload capacity — and until that
identity holds the read continues with the frame's payload appended. -/
theorem completion_at_full_report_size_identity (hdr cap tid : ℕ) (fr : InFrame)
    (rest : List ReadEvent) (acc : List ℕ)
    (hok : fr.resp = HID_SIO_RES_OK) (hmatch : fr.transId = tid) :
    readLoop hdr (HID_SIO_PACKET_SZ hdr cap) tid true (ReadEvent.frame fr :: rest) acc =
      (if fr.packet_num * (hdr + cap) + fr.packet_len = fr.transfer_len
       then some (LPCUSBSIO_OK, acc ++ fr.data.take (fr.packet_len - hdr))
       else readLoop hdr (HID_SIO_PACKET_SZ hdr cap) tid true rest
              (acc ++ fr.data.take (fr.packet_len - hdr))) := by
  simp [readLoop, HID_SIO_PACKET_SZ, hok, hmatch]

/-- Completing single-frame response used in the C2 witness. -/
def c2DoneFrame : InFrame :=
  { transId := 7, resp := 0, transfer_len := 14, packet_num := 0, packet_len := 14,
    data := List.replicate 60 5 }

/-- Witness for the amended C2 at a concrete completing frame. -/
theorem completion_at_full_report_size_identity_witness :
    readLoop 4 (HID_SIO_PACKET_SZ 4 60) 7 true [ReadEvent.frame c2DoneFrame] [] =
      some (LPCUSBSIO_OK, List.replicate 10 5) := by
  rw [completion_at_full_report_size_identity 4 60 7 c2DoneFrame [] [] rfl rfl]
  decide

/-- C3: a received frame whose transaction id differs from the outstanding
one is discarded and the read repeats on the remaining events: the
accumulated response payload is passed on unchanged, so no byte of the
discarded frame is appended and the accumulated length is unaffected. -/
theorem stale_frame_discarded (hdr packetSz tid : ℕ) (wantIn : Bool) (fr : InFrame)
    (rest : List ReadEvent) (acc : List ℕ) (hne : fr.transId ≠ tid) :
    readLoop hdr packetSz tid wantIn (ReadEvent.frame fr :: rest) acc =
      readLoop hdr packetSz tid wantIn rest acc := by
  simp [readLoop, hne]

/-- Stale frame (transaction id 9 against outstanding id 7) used in the C3
witness. -/
def c3Frame : InFrame :=
  { transId := 9, resp := 0, transfer_len := 14, packet_num := 0, packet_len := 14,
    data := List.replicate 60 5 }

/-- Witness for C3: discarding the stale frame leaves the read exactly where
it started. -/
theorem stale_frame_discarded_witness :
    readLoop 4 64 7 true [ReadEvent.frame c3Frame] [] = none := by
  rw [stale_frame_discarded 4 64 7 true c3Frame [] [] (by decide)]
  rfl

/-- With positive capacity, enough fuel and successful writes the write loop
returns, and the result of its last write is positive. -/
lemma sendLoop_succeeds (hdr cap : ℕ) (w : ℕ → Int) (tid s r tl : ℕ)
    (hw : ∀ n, 0 < w n) (hcap : 0 < cap) :
    ∀ fuel pn (d : List ℕ), d.length < fuel →
      ∃ frames wf, sendLoop hdr cap w tid s r tl fuel pn d = some (frames, wf) ∧ 0 < wf := by
  intro fuel
  induction fuel with
  | zero => exact fun pn d h => absurd h (Nat.not_lt_zero _)
  | succ f ih =>
    intro pn d hlt
    simp only [sendLoop]
    by_cases hrest : 0 < (d.drop (if cap < d.length then cap else d.length)).length
    · rw [if_pos ⟨hw pn, hrest⟩]
      have hlt2 : (d.drop (if cap < d.length then cap else d.length)).length < f := by
        rcases lt_or_ge cap d.length with hc | hc
        · simp only [if_pos hc, List.length_drop] at hrest ⊢
          omega
        · simp only [if_neg (not_lt.mpr hc), List.length_drop] at hrest
          omega
      obtain ⟨frames, wf, heq, hwf⟩ := ih (pn + 1) _ hlt2
      exact ⟨_, wf, by rw [heq]; rfl, hwf⟩
    · rw [if_neg (fun h => hrest h.2)]
      exact ⟨_, w pn, rfl, hw pn⟩

/-- C4: a transport read that returns zero bytes within the configured wait
makes the read phase return `LPCUSBSIO_ERR_TIMEOUT`; every returning
`SIO_SendRequest` call has released the session guard at its return point
(so a subsequent request, e.g. a reset, can acquire the guard); and a
timed-out read phase in a call that acquired the guard yields the timeout
error as the call's result with the guard released. -/
theorem timeout_returns_error_with_guard_released :
    (∀ hdr packetSz tid wantIn (rest : List ReadEvent) (acc : List ℕ),
        readLoop hdr packetSz tid wantIn (ReadEvent.timeout :: rest) acc =
          some (LPCUSBSIO_ERR_TIMEOUT, acc)) ∧
    (∀ hdr cap env transId portNum req outData wantIn o,
        sioSendRequest hdr cap env transId portNum req outData wantIn = some o →
        o.held = false) ∧
    (∀ hdr cap (env : SioEnv) transId portNum req (outData : List ℕ) d,
        0 < cap → env.lockOk = true → (∀ n, 0 < env.wres n) →
        readLoop hdr (HID_SIO_PACKET_SZ hdr cap) (transId % 256) true env.events [] =
          some (LPCUSBSIO_ERR_TIMEOUT, d) →
        ∃ frames, sioSendRequest hdr cap env transId portNum req outData true =
          some { res := LPCUSBSIO_ERR_TIMEOUT, inData := d, frames := frames,
                 held := false }) := by
  refine ⟨fun hdr packetSz tid wantIn rest acc => rfl, ?_, ?_⟩
  · intro hdr cap env transId portNum req outData wantIn o h
    unfold sioSendRequest at h
    split at h
    · injection h with h'
      subst h'
      rfl
    · split at h
      · cases h
      · split at h
        · split at h
          · cases h
          · injection h with h'
            subst h'
            rfl
        · injection h with h'
          subst h'
          rfl
  · intro hdr cap env transId portNum req outData d hcap hlock hw hread
    obtain ⟨frames, wf, heq, hwf⟩ := sendLoop_succeeds hdr cap env.wres (transId % 256)
      portNum req (HID_SIO_CALC_TRANSFER_LEN hdr cap outData.length) hw hcap
      (outData.length + 1) 0 outData (Nat.lt_succ_self _)
    have hwv : sioWrite hdr cap env.wres transId portNum req outData = some (frames, wf) := heq
    refine ⟨frames, ?_⟩
    unfold sioSendRequest
    rw [hlock]
    simp only [not_true, if_false, hwv, hread, if_pos hwf]

/-- Witness for C4 at a concrete environment whose single read event is a
timeout. -/
theorem timeout_returns_error_with_guard_released_witness :
    readLoop 4 64 7 true [ReadEvent.timeout] [] = some (LPCUSBSIO_ERR_TIMEOUT, []) ∧
    ∃ frames, sioSendRequest 4 60 ⟨true, fun _ => 1, [ReadEvent.timeout]⟩ 7 2 14 [] true =
      some { res := LPCUSBSIO_ERR_TIMEOUT, inData := [], frames := frames, held := false } :=
  ⟨timeout_returns_error_with_guard_released.1 4 64 7 true [] [],
   timeout_returns_error_with_guard_released.2.2 4 60 ⟨true, fun _ => 1, [ReadEvent.timeout]⟩
     7 2 14 [] [] (by norm_num) rfl (fun n => by norm_num) rfl⟩

/-- Session at address 1 with I2C port 0 open (the slot's back-reference set
to the session), as used in the C5 counterexample and the C6 witness. -/
def c5Dev : DevCtrl :=
  { adr := 1, maxI2CPorts := 4, maxSPIPorts := 2,
    i2cPorts := ({ hUsbSio := some 1, portNum := 0 } : PortSlot) :: List.replicate 7 emptySlot,
    spiPorts := List.replicate 8 emptySlot }

/-- Registry holding just the session of `c5Dev`. -/
def c5Reg : List DevCtrl := [c5Dev]

/-- The registry of `c5Reg` after the first successful close of port 0. -/
def c5RegClosed : List DevCtrl :=
  [{ adr := 1, maxI2CPorts := 4, maxSPIPorts := 2,
     i2cPorts := List.replicate 8 emptySlot,
     spiPorts := List.replicate 8 emptySlot }]

/-- C5 counterexample: (i) a deinit exchange that fails (here with a
timeout) leaves the back-reference set — the registry is unchanged, so the
slot is not cleared "regardless of acknowledgement"; (ii) after a successful
close, a second `I2C_Close` on the same handle is not rejected with a
"not open" error: the address-range validation still accepts the handle and
the call dereferences the now-NULL back-reference (undefined behavior,
modelled `none`) instead of returning `LPCUSBSIO_ERR_BAD_HANDLE`. -/
theorem close_clears_only_on_success_and_second_close_crashes :
    I2C_Close c5Reg (1, 0) LPCUSBSIO_ERR_TIMEOUT =
      some (LPCUSBSIO_ERR_TIMEOUT, c5Reg, true) ∧
    I2C_Close c5Reg (1, 0) LPCUSBSIO_OK = some (LPCUSBSIO_OK, c5RegClosed, true) ∧
    I2C_Close c5RegClosed (1, 0) LPCUSBSIO_OK = none ∧
    validPortHandle c5RegClosed (1, 0) = true := by
  decide

/-- C5 amended: `I2C_Close` on a valid-range handle whose slot is open sends
the deinit exchange and clears the back-reference only when the exchange
returns success (returning the exchange result either way); on a valid-range
handle whose slot is already closed the call is not rejected — it goes on to
dereference the NULL back-reference (undefined behavior). -/
theorem i2c_close_clears_only_on_success (reg : List DevCtrl) (a k : ℕ) (r : Int)
    (slot : PortSlot) (owner : ℕ) (hv : validPortHandle reg (a, k) = true)
    (hs : portSlotAt reg (a, k) = some slot) :
    (slot.hUsbSio = some owner → r ≠ LPCUSBSIO_OK →
       I2C_Close reg (a, k) r = some (r, reg, true)) ∧
    (slot.hUsbSio = some owner →
       I2C_Close reg (a, k) LPCUSBSIO_OK =
         some (LPCUSBSIO_OK, clearSlot reg (a, k), true)) ∧
    (slot.hUsbSio = none → I2C_Close reg (a, k) r = none) := by
  refine ⟨?_, ?_, ?_⟩
  · intro ho hne
    simp [I2C_Close, hv, hs, ho, hne]
  · intro ho
    simp [I2C_Close, hv, hs, ho]
  · intro ho
    simp [I2C_Close, hv, hs, ho]

/-- Witness for the amended C5 on the concrete one-session registry. -/
theorem i2c_close_clears_only_on_success_witness :
    I2C_Close c5Reg (1, 0) (-1) = some (-1, c5Reg, true) ∧
    I2C_Close c5Reg (1, 0) LPCUSBSIO_OK =
      some (LPCUSBSIO_OK, clearSlot c5Reg (1, 0), true) := by
  have h := i2c_close_clears_only_on_success c5Reg 1 0 (-1)
    { hUsbSio := some 1, portNum := 0 } 1 (by decide) (by decide)
  exact ⟨h.1 rfl (by decide), h.2.1 rfl⟩

/-- A session handle found in the registry is one `validHandle` accepts. -/
lemma validHandle_of_findDev (reg : List DevCtrl) (a : ℕ) (d : DevCtrl)
    (h : findDev reg a = some d) :
    validHandle a (reg.map DevCtrl.adr) = some true := by
  induction reg with
  | nil => simp [findDev] at h
  | cons x xs ih =>
    by_cases hx : x.adr = a
    · simp [validHandle, hx]
    · have h' : findDev xs a = some d := by
        simpa [findDev, hx] using h
      have hxa : ¬ (a = x.adr) := fun hc => hx hc.symm
      simp only [List.map_cons, validHandle, if_neg hxa]
      exact ih h'

/-- C6: on a live session with a non-null config, `I2C_Open` rejects a port
number at or above the session's reported I2C capability count with no
handle (NULL) and `g_lastError = LPCUSBSIO_ERR_INVALID_PARAM` and leaves the
registry unchanged; for an in-range port number (inside the compiled table)
whose init-port exchange succeeds it claims the pre-allocated slot at index
`portNum` by setting its back-reference and returns that slot's handle; and
handles returned for distinct port numbers are distinct. -/
theorem i2c_open_range_and_slot_claim (reg : List DevCtrl) (a : ℕ) (d : DevCtrl)
    (portNum : ℕ) (initRes : Int) (hfind : findDev reg a = some d) :
    (d.maxI2CPorts ≤ portNum →
       I2C_Open reg a true portNum true initRes =
         some (none, reg, some LPCUSBSIO_ERR_INVALID_PARAM)) ∧
    (portNum < d.maxI2CPorts → portNum < MAX_I2C_PORTS →
       I2C_Open reg a true portNum true LPCUSBSIO_OK =
         some (some (a, portNum),
           updDev reg a (fun d0 =>
             { d0 with i2cPorts :=
                 d0.i2cPorts.set portNum { hUsbSio := some a, portNum := portNum } }),
           some LPCUSBSIO_OK)) ∧
    (∀ p1 p2 : ℕ, p1 ≠ p2 → ((a, p1) : ℕ × ℕ) ≠ (a, p2)) := by
  have hvalid := validHandle_of_findDev reg a d hfind
  refine ⟨?_, ?_, ?_⟩
  · intro hge
    simp [I2C_Open, hvalid, hfind, hge]
  · intro hlt htable
    simp [I2C_Open, hvalid, hfind, not_le.mpr hlt, htable]
  · intro p1 p2 hne h
    exact hne (congrArg Prod.snd h)

/-- Witness for C6 on the concrete one-session registry (capability count
4): port 4 is rejected, port 1 is claimed. -/
theorem i2c_open_range_and_slot_claim_witness :
    I2C_Open c5Reg 1 true 4 true LPCUSBSIO_OK =
      some (none, c5Reg, some LPCUSBSIO_ERR_INVALID_PARAM) ∧
    I2C_Open c5Reg 1 true 1 true LPCUSBSIO_OK =
      some (some (1, 1),
        updDev c5Reg 1 (fun d0 =>
          { d0 with i2cPorts :=
              d0.i2cPorts.set 1 { hUsbSio := some 1, portNum := 1 } }),
        some LPCUSBSIO_OK) := by
  have h := i2c_open_range_and_slot_claim c5Reg 1 c5Dev 4 LPCUSBSIO_OK (by decide)
  have h2 := i2c_open_range_and_slot_claim c5Reg 1 c5Dev 1 LPCUSBSIO_OK (by decide)
  exact ⟨h.1 (by decide), h2.2.1 (by decide) (by decide)⟩

/-- C7 counterexample: -6 lies inside the local/library range [0,0x0F] but
outside its known sub-entries (6 ≥ NUM_LIB_ERR_STRINGS), yet it maps to
"No errors are recorded." — the same string returned for the success code 0
— not to a generic "unsupported error code" message; only the bridge range
has such a fallback. -/
theorem lib_range_fallback_is_success_message :
    GetErrorString (-6) = "No errors are recorded." ∧
    GetErrorString (-6) = GetErrorString 0 ∧
    GetErrorString (-0x26) = " Unsupported Error Code" :=
  ⟨rfl, rfl, rfl⟩

/-- C7 amended: the translator classifies |err| into the three disjoint
ranges [0,0x0F] (library table), [0x10,0x1F] (firmware table) and
[0x20,0x2F] (bridge table); the range-local fallbacks for codes beyond the
known sub-entries are: firmware range → the catch-all "Firmware error.",
bridge range → " Unsupported Error Code", but library range → the index-0
"No errors are recorded." success string; |err| ≥ 0x30 also yields that
success string. -/
theorem error_ranges_and_fallbacks (err : Int) :
    (err.natAbs < 0x10 → GetErrorString err ∈ g_LibErrMsgs) ∧
    (0x10 ≤ err.natAbs → err.natAbs < 0x20 → GetErrorString err ∈ g_fwErrMsgs) ∧
    (0x20 ≤ err.natAbs → err.natAbs < 0x30 → GetErrorString err ∈ g_BridgeErrMsgs) ∧
    (6 ≤ err.natAbs → err.natAbs < 0x10 →
       GetErrorString err = "No errors are recorded.") ∧
    (0x16 ≤ err.natAbs → err.natAbs < 0x20 → GetErrorString err = "Firmware error.") ∧
    (0x24 ≤ err.natAbs → err.natAbs < 0x30 →
       GetErrorString err = " Unsupported Error Code") ∧
    (0x30 ≤ err.natAbs → GetErrorString err = "No errors are recorded.") := by
  unfold GetErrorString
  set n := err.natAbs with hn
  refine ⟨?_, ?_, ?_, ?_, ?_, ?_, ?_⟩
  · intro h1
    interval_cases n <;> decide
  · intro h1 h2
    interval_cases n <;> decide
  · intro h1 h2
    interval_cases n <;> decide
  · intro h1 h2
    interval_cases n <;> decide
  · intro h1 h2
    interval_cases n <;> decide
  · intro h1 h2
    interval_cases n <;> decide
  · intro h1
    rw [if_neg (by omega), if_neg (by omega), if_neg (by omega)]
    rfl

/-- Witness for the amended C7 at the firmware-range code -0x16. -/
theorem error_ranges_and_fallbacks_witness :
    GetErrorString (-0x16) = "Firmware error." :=
  (error_ranges_and_fallbacks (-0x16)).2.2.2.2.1 (by decide) (by decide)

/-- C8: `validHandle` safely rejects only the NULL handle; on a non-null
handle that is not in the live list (here address 2 against the list [1])
the traversal runs past the null end of the list and dereferences it
(modelled `none`) instead of terminating with 0, while members are
accepted. -/
theorem validHandle_stranger_null_deref :
    validHandle 2 [1] = none ∧
    validHandle 0 [1] = some false ∧
    validHandle 1 [1] = some true := by
  decide

/-- Session at address 1 whose device-reported I2C capability count (9)
exceeds the compiled eight-slot table, as parsed from the C9 device-info
response. -/
def c9Dev : DevCtrl :=
  { adr := 1, maxI2CPorts := 9, maxSPIPorts := 2,
    i2cPorts := List.replicate 8 emptySlot,
    spiPorts := List.replicate 8 emptySlot }

/-- Registry holding just the session of `c9Dev`. -/
def c9Reg : List DevCtrl := [c9Dev]

/-- C9: the capability counts are taken unclamped from the device response —
a device-info payload reporting 9 I2C ports parses to `maxI2CPorts = 9`,
which exceeds the compiled table size `MAX_I2C_PORTS = 8`; `I2C_Open` then
accepts port number 8 (since 8 < 9) and its slot store at index 8 falls
outside the eight-slot table (undefined behavior, modelled `none`). -/
theorem device_reported_caps_exceed_table :
    (parseDevInfo (9 :: 2 :: 1 :: List.replicate 9 0) 12 ⟨0, 0, 0⟩).maxI2CPorts = 9 ∧
    MAX_I2C_PORTS <
      (parseDevInfo (9 :: 2 :: 1 :: List.replicate 9 0) 12 ⟨0, 0, 0⟩).maxI2CPorts ∧
    I2C_Open c9Reg 1 true 8 true LPCUSBSIO_OK = none := by
  decide

/-- C10 counterexample: with the discovery entry present and transport open
and session allocation succeeding but mutex creation failing,
`LPCUSBSIO_Open` returns no handle yet the new session (address 1) stays
linked: the registry changed from [] to [1]. -/
theorem open_mutex_failure_leaves_session_linked :
    lpcOpenRegistry [] 1 true true true false = (none, [1]) ∧
    (1 :: []) ≠ ([] : List ℕ) := by
  decide

/-- C10 amended: whenever `LPCUSBSIO_Open` returns no handle the registry is
unchanged — except on the mutex-creation-failure path, which returns no
handle with the half-initialized session still linked at the head of the
live list. -/
theorem open_registry_null_paths (reg : List ℕ) (newAdr : ℕ)
    (devFound hidOk mallocOk mutexOk : Bool)
    (h : (lpcOpenRegistry reg newAdr devFound hidOk mallocOk mutexOk).1 = none) :
    (lpcOpenRegistry reg newAdr devFound hidOk mallocOk mutexOk).2 = reg ∨
    (mutexOk = false ∧
      (lpcOpenRegistry reg newAdr devFound hidOk mallocOk mutexOk).2 = newAdr :: reg) := by
  cases devFound <;> cases hidOk <;> cases mallocOk <;> cases mutexOk <;>
    simp_all [lpcOpenRegistry]

/-- Witness for the amended C10 at the mutex-creation-failure path. -/
theorem open_registry_null_paths_witness :
    (lpcOpenRegistry [] 1 true true true false).2 = [] ∨
    (false = false ∧ (lpcOpenRegistry [] 1 true true true false).2 = 1 :: []) :=
  open_registry_null_paths [] 1 true true true false rfl

end Theorems

end LibUsbSio
